import Mathlib

/-!
# OllamaOnDemand — verification of the streaming chat-session state machine

Shallow embedding of the streaming chat-session core of the OllamaOnDemand
repository (files `listeners.py`, `utils.py`, `chatsessions.py`), together
with proofs settling the specification claims about it.

Python strings are modelled as `List Char`; a Python `dict` message is a
`Message` record where an absent `"thinking"` key is `none` and absent
`"images"` / `"files"` keys are the empty list (Python truthiness of a
missing key and of an empty list coincide in every access the code makes).
Python exceptions are modelled with `Except` / an explicit `raised` field.
The generation client (`self.client.chat(..., stream=True)`) is an external
collaborator; its response is modelled as a `StreamScript`: the list of
chunks it yields and whether iterating it raises after those chunks.
-/

namespace OOD

/-- Python strings, modelled as lists of characters. -/
abbrev Str := List Char

/-- Whitespace characters stripped by Python `str.strip` / `lstrip` / `rstrip`. -/
def pyIsSpace (c : Char) : Bool :=
  c == ' ' || c == '\t' || c == '\n' || c == '\r' || c == Char.ofNat 11 || c == Char.ofNat 12

/-- Python `s.lstrip()`. -/
def lstrip (s : Str) : Str := s.dropWhile pyIsSpace

/-- Python `s.rstrip()`. -/
def rstrip (s : Str) : Str := (s.reverse.dropWhile pyIsSpace).reverse

/-- Python `s[-n:]` (for `n > 0`): the last `n` characters, or all of `s` when shorter. -/
def pyLastN (n : Nat) (s : Str) : Str := s.drop (s.length - n)

/-- Python `s[:-n]` (for `n > 0`): all but the last `n` characters. -/
def pyDropLastN (n : Nat) (s : Str) : Str := s.take (s.length - n)

/-- Python exceptions that the embedded code can raise.  `streamError` stands for
an arbitrary exception raised by the generation client while being iterated. -/
inductive PyError
  | keyError
  | indexError
  | streamError
  deriving DecidableEq, Repr

instance instDecEqExcept [DecidableEq ε] [DecidableEq α] : DecidableEq (Except ε α) := by
  intro a b
  cases a with
  | error e1 =>
    cases b with
    | error e2 =>
      by_cases h : e1 = e2
      · exact isTrue (by rw [h])
      · exact isFalse (by intro hc; injection hc; contradiction)
    | ok a2 => exact isFalse (by intro hc; cases hc)
  | ok a1 =>
    cases b with
    | error e2 => exact isFalse (by intro hc; cases hc)
    | ok a2 =>
      by_cases h : a1 = a2
      · exact isTrue (by rw [h])
      · exact isFalse (by intro hc; injection hc; contradiction)

/-- Resolve a Python sequence index (negative indices count from the end);
`none` models an `IndexError`. -/
def pyIndex (len : Nat) (i : Int) : Option Nat :=
  if 0 ≤ i then
    if i < (len : Int) then some i.toNat else none
  else
    let j : Int := (len : Int) + i
    if 0 ≤ j then some j.toNat else none

/-- Python `l[i]` on a list: negative indices allowed, out-of-range raises. -/
def pyGet (l : List α) (i : Int) : Except PyError α :=
  match pyIndex l.length i with
  | some n =>
    match l.get? n with
    | some x => Except.ok x
    | none => Except.error PyError.indexError
  | none => Except.error PyError.indexError

/-- Python `l[:i]` (slice up to `i`, clamped; negative `i` counts from the end). -/
def pySliceTo (l : List α) (i : Int) : List α :=
  if 0 ≤ i then l.take i.toNat else l.take ((l.length : Int) + i).toNat

/-- Message role (`chat["role"]`). -/
inductive Role
  | user
  | assistant
  deriving DecidableEq, Repr

/-- A chat message dictionary.  `thinking := none` models a dict without the
`"thinking"` key; `images := []` / `files := []` model those keys being absent
or empty (indistinguishable under the code's truthiness checks). -/
structure Message where
  role : Role
  content : Str
  thinking : Option Str := none
  images : List Str := []
  files : List Str := []
  deriving DecidableEq, Repr

/-- A chat session entry of `chatsessions.chats`: `{"title": ..., "history": ...}`. -/
structure Session where
  title : Str
  history : List Message
  deriving DecidableEq, Repr

/-- One chunk of the streamed generation response (`chunk.message`).
`thinking = []` models a `None` or empty thinking attribute (falsy);
`content` is `chunk.message.content or ""`. -/
structure Chunk where
  thinking : Str := []
  content : Str := []
  deriving DecidableEq, Repr

/-- The generation response, as an external collaborator: the chunks its
iterator yields, and whether iterating it raises after those chunks. -/
structure StreamScript where
  chunks : List Chunk
  raises : Bool
  deriving DecidableEq, Repr

/-- The streaming-relevant state of the `OllamaOnDemandUI` object together
with the `chatsessions.chats` module global.  `chatHistory` is the current
session's transcript (`self.chat_history`). -/
structure AppState where
  chats : List Session
  chatIndex : Int
  chatTitle : Str
  chatHistory : List Message
  isStreaming : Bool
  deriving DecidableEq, Repr

/-- The ASCII apostrophe character, written by code point so that HTML
attribute quoting in the source strings can be reproduced verbatim. -/
def apos : Char := Char.ofNat 39

/-- `self.think_tags["head"]` (main.py constructor). -/
def thinkHead : Str :=
  ("<div class=").toList ++ apos :: ("thinking-block").toList ++
    apos :: ("><details open class=").toList ++ apos :: ("thinking").toList ++
    apos :: ("><summary><i><b>(Thinking...)</b></summary>\n\n<br>").toList

/-- `self.think_tags["tail"]` (main.py constructor). -/
def thinkTail : Str :=
  ("</i></details></div><br>\n\n").toList

/-- One entry of the display-formatted history (`chat_history_display`):
either a (possibly decorated) copy of a raw message, or a synthetic bubble
(`gr.Image`/`gr.Gallery` for images, `gr.File` per file). -/
inductive DisplayEntry
  | message (m : Message)
  | imageBubble (images : List Str)
  | fileBubble (file : Str)
  deriving DecidableEq, Repr

/-- Display decoration of one assistant message (`utils.chat_history_display`):
if `"thinking"` is truthy, prepend `head + thinking + tail` to the content. -/
def displayDecorate (m : Message) : Message :=
  match m.thinking with
  | some t =>
    if t ≠ [] then { m with content := thinkHead ++ t ++ thinkTail ++ m.content } else m
  | none => m

/-- Display expansion of one raw message (`utils.chat_history_display` loop
body): assistant messages are decorated; user messages with images get one
preceding image/gallery bubble, user messages with non-image files get one
preceding bubble per file; the message copy itself is always appended. -/
def displayExpand (m : Message) : List DisplayEntry :=
  match m.role with
  | Role.assistant => [DisplayEntry.message (displayDecorate m)]
  | Role.user =>
    (if m.images ≠ [] then [DisplayEntry.imageBubble m.images]
     else m.files.map DisplayEntry.fileBubble) ++ [DisplayEntry.message m]

/-- `utils.UtilsMixin.chat_history_display`: the displayable transcript. -/
def chatHistoryDisplay (hist : List Message) : List DisplayEntry :=
  (hist.map displayExpand).flatten

/-- Python `chat_history[-1]`: the last message, `IndexError` when empty. -/
def getLast (hist : List Message) : Except PyError Message :=
  match hist.getLast? with
  | some m => Except.ok m
  | none => Except.error PyError.indexError

/-- Write back the (mutated in place) last message of a non-empty history. -/
def setLast (hist : List Message) (m : Message) : List Message :=
  hist.dropLast ++ [m]

/-- `chat_history[-1]["thinking"] += s`: `KeyError` when the key is absent. -/
def thinkingAppend (m : Message) (s : Str) : Except PyError Message :=
  match m.thinking with
  | none => Except.error PyError.keyError
  | some t => Except.ok { m with thinking := some (t ++ s) }

/-- The fixed user-facing error marker written on a stream failure
(`listeners.ListenerMixin.stream_chat`, except branch). -/
def errorMarker : Str :=
  ("[Error] An error has occurred! Please see error message and and try again!").toList

/-- One iteration of the chunk loop of `stream_chat` (listeners.py lines
76–111), acting on the history and the local `is_thinking` flag.  All raise
points precede any mutation, so an error leaves the history unchanged. -/
def streamStep (hist : List Message) (isThinking : Bool) (c : Chunk) :
    Except PyError (List Message × Bool) :=
  match getLast hist with
  | Except.error e => Except.error e
  | Except.ok last =>
    if c.thinking ≠ [] then
      -- chunk has a truthy "thinking" attribute: always append it to "thinking"
      match thinkingAppend last c.thinking with
      | Except.error e => Except.error e
      | Except.ok last2 => Except.ok (setLast hist last2, isThinking)
    else if isThinking then
      -- append "content" to "thinking", then detect the closing tag
      match thinkingAppend last c.content with
      | Except.error e => Except.error e
      | Except.ok last2 =>
        let t := last2.thinking.getD []
        if pyLastN 8 (rstrip t) = ("</think>").toList then
          Except.ok
            (setLast hist { last2 with thinking := some (pyDropLastN 8 (rstrip t)) }, false)
        else
          Except.ok (setLast hist last2, true)
    else
      -- append "content" to "content", then detect the opening tag
      let last2 := { last with content := last.content ++ c.content }
      if (lstrip last2.content).take 7 = ("<think>").toList then
        Except.ok
          (setLast hist
            { last2 with
              thinking := some ((lstrip last2.content).drop 7)
              content := [] }, true)
      else
        Except.ok (setLast hist last2, false)

/-- Result of the `try` body of `stream_chat`: either the loop finished
(stream exhausted or interruption `break`), or an exception was raised; in
both cases the history mutated so far and the snapshots already yielded are
kept (Python mutates `self.chat_history` in place). -/
inductive TryResult
  | finished (hist : List Message) (isThinking : Bool) (yields : List (List DisplayEntry))
  | raised (e : PyError) (hist : List Message) (yields : List (List DisplayEntry))
  deriving DecidableEq, Repr

/-- The `for chunk in response` loop of `stream_chat`.  `streaming` is
`self.is_streaming`, constant during the loop in this sequential model;
the loop still re-checks it before each chunk (interruption `break`).
After each applied chunk a display snapshot is yielded. -/
def streamLoop (streaming : Bool) (hist : List Message) (isThinking : Bool) :
    List Chunk → TryResult
  | [] => TryResult.finished hist isThinking []
  | c :: rest =>
    if streaming = false then
      TryResult.finished hist isThinking []
    else
      match streamStep hist isThinking c with
      | Except.error e => TryResult.raised e hist []
      | Except.ok (hist2, think2) =>
        let snap := chatHistoryDisplay hist2
        match streamLoop streaming hist2 think2 rest with
        | TryResult.finished h t outs => TryResult.finished h t (snap :: outs)
        | TryResult.raised e h outs => TryResult.raised e h (snap :: outs)

/-- The overall outcome of a `stream_chat` call that did not itself raise:
the final state, the transcript snapshots yielded to the UI boundary, and
the warnings emitted via `gr.Warning`. -/
structure StreamOutcome where
  state : AppState
  yields : List (List DisplayEntry)
  warnings : List PyError
  deriving DecidableEq, Repr

/-- The code after the guarded block of `stream_chat` (listeners.py lines
124–132): set `is_streaming` to `False`, delete the `"thinking"` key of the
last message when it is falsy (a `KeyError` if the key is absent, an
`IndexError` if the history is empty), and yield a final snapshot. -/
def finishStream (s : AppState) (hist : List Message)
    (yields : List (List DisplayEntry)) (warns : List PyError) :
    Except PyError StreamOutcome :=
  match getLast hist with
  | Except.error e => Except.error e
  | Except.ok last =>
    match last.thinking with
    | none => Except.error PyError.keyError
    | some t =>
      let hist2 := if t = [] then setLast hist { last with thinking := none } else hist
      Except.ok
        { state := { s with chatHistory := hist2, isStreaming := false }
          yields := yields ++ [chatHistoryDisplay hist2]
          warnings := warns }

/-- The `except Exception` handler of `stream_chat` (listeners.py lines
117–122): overwrite the last message's content with the error marker, emit
one warning, yield a snapshot, then fall through to `finishStream`. -/
def streamHandler (s : AppState) (e : PyError) (hist : List Message)
    (yields : List (List DisplayEntry)) : Except PyError StreamOutcome :=
  match getLast hist with
  | Except.error e2 => Except.error e2
  | Except.ok last =>
    let hist2 := setLast hist { last with content := errorMarker }
    finishStream s hist2 (yields ++ [chatHistoryDisplay hist2]) [e]

/-- `listeners.ListenerMixin.stream_chat`.  The construction of the request
(options pre-processing and the `self.client.chat` call) is external I/O
whose response is the given `script`; everything from the guard
`if self.is_streaming:` onward is embedded.  A `Except.error` result models
an exception propagating out of the generator. -/
def stream_chat (s : AppState) (script : StreamScript) : Except PyError StreamOutcome :=
  if s.isStreaming then
    match streamLoop true s.chatHistory false script.chunks with
    | TryResult.raised e hist outs => streamHandler s e hist outs
    | TryResult.finished hist _think outs =>
      if script.raises then streamHandler s PyError.streamError hist outs
      else finishStream s hist outs []
  else
    finishStream s s.chatHistory [] []

/-- The value of the multimodal text input (`user_input` dictionary). -/
structure UserInput where
  text : Str
  files : List Str
  deriving DecidableEq, Repr

/-- A fresh empty assistant placeholder, as appended by `new_message`,
`retry` and `edit`: `{"role": "assistant", "content": "", "thinking": ""}`. -/
def freshAssistant : Message :=
  { role := Role.assistant, content := [], thinking := some [] }

/-- `listeners.ListenerMixin.stop_stream_chat`: set `is_streaming` to
`False` and yield one display snapshot. -/
def stop_stream_chat (s : AppState) : AppState × List (List DisplayEntry) :=
  ({ s with isStreaming := false }, [chatHistoryDisplay s.chatHistory])

/-- `listeners.ListenerMixin.new_message`.  `fmtUpload` is the external
attachment formatter `multimodal.format_chat_upload`, invoked only when the
input carries files. -/
def new_message (fmtUpload : Message → Message) (input : UserInput) (s : AppState) :
    AppState × List (List DisplayEntry) :=
  let userMessage :=
    if input.files.length > 0 then
      fmtUpload { role := Role.user, content := input.text, files := input.files }
    else
      { role := Role.user, content := input.text }
  let hist := s.chatHistory ++ [userMessage, freshAssistant]
  ({ s with chatHistory := hist, isStreaming := true }, [chatHistoryDisplay hist])

/-- The per-message decrement applied by the index-correction loop of
`retry` / `edit`: `1` for an image-bearing message, `len(files)` for a
file-bearing one, `0` otherwise. -/
def retryExtra (m : Message) : Int :=
  if m.images ≠ [] then 1
  else if m.files ≠ [] then (m.files.length : Int)
  else 0

/-- The `while (i <= index)` index-correction loop of `retry` / `edit`
(listeners.py lines 205–211): walks the raw history, subtracting the extra
display slots consumed by attachment-bearing messages.  `chat_history[i]`
out of range raises `IndexError`. -/
def retryLoop (hist : List Message) (i : Nat) (index : Int) : Except PyError Int :=
  if _h : (i : Int) ≤ index then
    match hist.get? i with
    | none => Except.error PyError.indexError
    | some m => retryLoop hist (i + 1) (index - retryExtra m)
  else
    Except.ok index
termination_by (index + 1 - i).toNat
decreasing_by
  have hm : 0 ≤ retryExtra m := by
    unfold retryExtra
    split
    · omega
    · split
      · exact Int.ofNat_nonneg _
      · omega
  omega

/-- `listeners.ListenerMixin.retry`: resolve the display index to a raw
index, truncate the history to it inclusive, append a fresh assistant
placeholder, set `is_streaming` to `True`, and yield a snapshot. -/
def retry (s : AppState) (displayIndex : Int) :
    Except PyError (AppState × List (List DisplayEntry)) :=
  match retryLoop s.chatHistory 0 displayIndex with
  | Except.error e => Except.error e
  | Except.ok index =>
    let hist := pySliceTo s.chatHistory (index + 1) ++ [freshAssistant]
    Except.ok ({ s with chatHistory := hist, isStreaming := true },
      [chatHistoryDisplay hist])

/-- The display index of raw message `k`'s own bubble: the number of display
entries produced by the preceding raw messages.  (Exact whenever message `k`
itself contributes no synthetic bubbles, i.e. carries no attachments.) -/
def displayIndexOf (hist : List Message) (k : Nat) : Nat :=
  (chatHistoryDisplay (hist.take k)).length

/-- `chatsessions.py` module initialisation: the default chat sessions. -/
def csChatsInit : List Session :=
  [ { title := ("News summary").toList
      history :=
        [ { role := Role.user, content := ("Hi there!").toList }
        , { role := Role.assistant,
            content := ("Hello! How can I help you today?").toList }
        , { role := Role.user, content := ("Can you summarize the news?").toList }
        , { role := Role.assistant,
            content := ("Sure! Here").toList ++ apos ::
              ("s a brief summary of today").toList ++ apos ::
              ("s top news...").toList } ] }
  , { title := ("Capital of France").toList
      history :=
        [ { role := Role.user, content := ("What is the capital of France?").toList }
        , { role := Role.assistant,
            content := ("The capital of France is Paris.").toList } ] }
  , { title := ("Quantum entanglement").toList
      history :=
        [ { role := Role.user, content := ("Explain quantum entanglement").toList }
        , { role := Role.assistant,
            content := ("Quantum entanglement is a physical phenomenon where particles remain connected such that the state of one affects the other, no matter the distance.").toList } ] } ]

/-- `chatsessions.load_chat`: `chats[index]["history"]` with Python list
indexing (negative indices count from the end; out of range raises). -/
def cs_load_chat (chats : List Session) (index : Int) : Except PyError (List Message) :=
  match pyGet chats index with
  | Except.ok session => Except.ok session.history
  | Except.error e => Except.error e

/-- The empty untitled session prepended by `chatsessions.new_chat`. -/
def emptySession : Session :=
  { title := [], history := [] }

/-- `chatsessions.new_chat`: prepend an empty untitled session; returns the
new store and the returned `chats[0]["history"]` (the empty history). -/
def cs_new_chat (chats : List Session) : List Session × List Message :=
  (emptySession :: chats, [])

/-- `chatsessions.delete_chat`: delete the session at `index` when
`0 <= index < len(chats)`, otherwise do nothing. -/
def cs_delete_chat (chats : List Session) (index : Int) : List Session :=
  if 0 ≤ index ∧ index < (chats.length : Int) then chats.eraseIdx index.toNat
  else chats

/-- `chatsessions.set_chat_title`: `chats[index]["title"] = title`
(Python indexing, so negative indices work and out of range raises). -/
def cs_set_chat_title (chats : List Session) (index : Int) (title : Str) :
    Except PyError (List Session) :=
  match pyIndex chats.length index with
  | some n =>
    match chats.get? n with
    | some session => Except.ok (chats.set n { session with title := title })
    | none => Except.error PyError.indexError
  | none => Except.error PyError.indexError

/-- `chatsessions.get_chat_title`: `chats[index]["title"]`. -/
def cs_get_chat_title (chats : List Session) (index : Int) : Except PyError Str :=
  match pyGet chats index with
  | Except.ok session => Except.ok session.title
  | Except.error e => Except.error e

/-- `chatsessions.get_chat_titles`: each title, or the placeholder
`"New Chat {i+1}"` when the stored title is empty. -/
def cs_get_chat_titles (chats : List Session) : List Str :=
  chats.enum.map fun p =>
    if p.2.title ≠ [] then p.2.title
    else ("New Chat ").toList ++ (Nat.repr (p.1 + 1)).toList

/-- `utils.UtilsMixin.update_current_chat`: `-1` creates a new chat (and
selects it); any other index selects an existing chat, reloading
`chat_history` and `chat_title` from the session store. -/
def update_current_chat (s : AppState) (chatIndex : Int) : Except PyError AppState :=
  if chatIndex = -1 then
    let r := cs_new_chat s.chats
    match cs_get_chat_title r.1 0 with
    | Except.error e => Except.error e
    | Except.ok title =>
      Except.ok { s with chats := r.1, chatIndex := 0, chatHistory := r.2, chatTitle := title }
  else
    match cs_load_chat s.chats chatIndex with
    | Except.error e => Except.error e
    | Except.ok hist =>
      match cs_get_chat_title s.chats chatIndex with
      | Except.error e => Except.error e
      | Except.ok title =>
        Except.ok { s with chatIndex := chatIndex, chatHistory := hist, chatTitle := title }

/-- `listeners.ListenerMixin.new_chat`: switch to a freshly created chat. -/
def new_chat (s : AppState) : Except PyError AppState :=
  update_current_chat s (-1)

/-- `listeners.ListenerMixin.delete_chat`: delegate deletion to the session
store; if the store became empty, create a fresh chat; otherwise adjust the
current index per the shift rule and reload the current chat. -/
def delete_chat (s : AppState) (index : Int) : Except PyError AppState :=
  let chats1 := cs_delete_chat s.chats index
  let s1 := { s with chats := chats1 }
  let numChats := (cs_get_chat_titles chats1).length
  if numChats = 0 then
    new_chat s1
  else if s.chatIndex ≥ index ∧ s.chatIndex > 0 then
    update_current_chat s1 (s.chatIndex - 1)
  else
    update_current_chat s1 s.chatIndex

/-- Python `s.strip()`. -/
def pyStrip (s : Str) : Str := lstrip (rstrip s)

/-- Index of the first occurrence of `pat` as a contiguous substring. -/
def findSubIdx (pat : Str) : Str → Option Nat
  | [] => if pat = [] then some 0 else none
  | c :: rest =>
    if pat.isPrefixOf (c :: rest) then some 0
    else (findSubIdx pat rest).map (· + 1)

/-- `re.sub(r"<think>.*?</think>", "", s, flags=re.DOTALL)`: left-to-right
scan; at each position, a lazily-matched `<think>`…`</think>` block (the
earliest closing tag) is removed and scanning resumes after it; a position
where `<think>` matches but no closing tag follows is not a match. -/
def removeThinkBlocks : Str → Str
  | [] => []
  | c :: rest =>
    if ("<think>").toList.isPrefixOf (c :: rest) then
      match findSubIdx (("</think>").toList) ((c :: rest).drop 7) with
      | some j => removeThinkBlocks ((c :: rest).drop (7 + j + 8))
      | none => c :: removeThinkBlocks rest
    else c :: removeThinkBlocks rest
termination_by s => s.length
decreasing_by
  · simp [List.length_drop]
    omega
  · simp
  · simp

/-- The one-off summarization instruction message appended (without being
persisted) by `update_chat_selector`. -/
def titlePrompt : Message :=
  { role := Role.user
    content :=
      ("Summarize this entire conversation with less than six words. Be objective and formal (Don").toList ++
        apos :: ("t use first person expression). No punctuation.").toList }

/-- Result of a Python call that may raise after performing some mutations:
the object state as of the return or the raise, plus the propagated
exception if any. -/
structure PyResult (α : Type) where
  state : α
  raised : Option PyError
  deriving DecidableEq, Repr

/-- `listeners.ListenerMixin.update_chat_selector`.  `call` is the external
non-streaming generation capability (`self.client.chat(..., stream=False)`,
returning `response.message.content`).  There is no exception handling in
the source: a raise from `call` propagates, with no state mutation. -/
def update_chat_selector (call : List Message → Except PyError Str) (s : AppState) :
    PyResult AppState :=
  if s.chatTitle = ("New Chat").toList then
    match call (s.chatHistory ++ [titlePrompt]) with
    | Except.error e => { state := s, raised := some e }
    | Except.ok content =>
      let newTitle := pyStrip (removeThinkBlocks content)
      let s2 := { s with chatTitle := newTitle }
      match cs_set_chat_title s.chats s.chatIndex newTitle with
      | Except.error e => { state := s2, raised := some e }
      | Except.ok chats2 => { state := { s2 with chats := chats2 }, raised := none }
  else
    { state := s, raised := none }

/-- Number of synthetic display bubbles `chat_history_display` emits before
a message's own bubble: one image/gallery bubble, or one bubble per file. -/
def displayExtra (m : Message) : Nat :=
  match m.role with
  | Role.assistant => 0
  | Role.user => if m.images ≠ [] then 1 else m.files.length

/-!
## Concrete fixtures

Closed states and scripts used by counterexamples and witnesses.
-/

/-- A mid-stream state: one user message plus the open assistant placeholder. -/
def exampleState : AppState :=
  { chats := []
    chatIndex := 0
    chatTitle := []
    chatHistory := [ { role := Role.user, content := ("hello").toList }, freshAssistant ]
    isStreaming := true }

/-- The spec's Mode B increments: `"<thi"`, `"nk>reasoning here</thi"`, `"nk>answer"`. -/
def exampleScriptModeB : StreamScript :=
  { chunks :=
      [ { content := ("<thi").toList }
      , { content := ("nk>reasoning here</thi").toList }
      , { content := ("nk>answer").toList } ]
    raises := false }

/-- The Mode B increments re-chunked so that the closing tag ends an increment. -/
def exampleScriptModeBSplit : StreamScript :=
  { chunks :=
      [ { content := ("<thi").toList }
      , { content := ("nk>reasoning here</thi").toList }
      , { content := ("nk>").toList }
      , { content := ("answer").toList } ]
    raises := false }

/-- A generation response that yields one thinking increment and then raises. -/
def exampleScriptErr : StreamScript :=
  { chunks := [ { thinking := ("abc").toList } ], raises := true }

/-- A generation response yielding one plain content increment. -/
def exampleScriptHi : StreamScript :=
  { chunks := [ { content := ("hi").toList } ], raises := false }

/-- A previously completed / freshly loaded chat: `is_streaming` is `False`
and the last (assistant) message has no `"thinking"` key. -/
def loadedState : AppState :=
  { chats := []
    chatIndex := 0
    chatTitle := []
    chatHistory :=
      [ { role := Role.user, content := ("hi").toList }
      , { role := Role.assistant, content := ("ok").toList } ]
    isStreaming := false }

/-- A state holding only the open assistant placeholder, mid-stream. -/
def minimalStreamState : AppState :=
  { chats := []
    chatIndex := 0
    chatTitle := []
    chatHistory := [freshAssistant]
    isStreaming := true }

/-- A state whose current chat title is the `"New Chat"` sentinel checked by
`update_chat_selector`. -/
def titleState : AppState :=
  { chats := [ { title := ("New Chat").toList
                 history := [ { role := Role.user, content := ("hi").toList } ] } ]
    chatIndex := 0
    chatTitle := ("New Chat").toList
    chatHistory := [ { role := Role.user, content := ("hi").toList } ]
    isStreaming := false }

/-- A generation capability that always raises. -/
def failingCall : List Message → Except PyError Str :=
  fun _ => Except.error PyError.streamError

/-- A session store holding exactly one session. -/
def oneChatState : AppState :=
  { chats := [ { title := ("T").toList
                 history := [ { role := Role.user, content := ("hi").toList } ] } ]
    chatIndex := 0
    chatTitle := ("T").toList
    chatHistory := [ { role := Role.user, content := ("hi").toList } ]
    isStreaming := false }

/-- A transcript whose first user message carries two non-image files, for
exercising the display-index correction. -/
def retryState : AppState :=
  { chats := []
    chatIndex := 0
    chatTitle := []
    chatHistory :=
      [ { role := Role.user, content := ("see files").toList,
          files := [("a.txt").toList, ("b.txt").toList] }
      , { role := Role.assistant, content := ("noted").toList }
      , { role := Role.user, content := ("and now?").toList }
      , { role := Role.assistant, content := ("done").toList } ]
    isStreaming := false }

/-!
## Helper lemmas
-/

theorem setLast_getLast (hist : List Message) (m : Message) :
    (setLast hist m).getLast? = some m := by
  unfold setLast
  exact List.getLast?_concat _

/-- Specification of the unconditional post-stream cleanup: on success the
streaming flag is cleared, the warnings are passed through, and the final
last message keeps its content, never carrying an empty `"thinking"`. -/
theorem finishStream_ok_spec {s : AppState} {hist : List Message}
    {yields : List (List DisplayEntry)} {warns : List PyError} {o : StreamOutcome}
    (h : finishStream s hist yields warns = Except.ok o) :
    o.state.isStreaming = false ∧ o.warnings = warns ∧
    ∃ last t, hist.getLast? = some last ∧ last.thinking = some t ∧
      ∃ m, o.state.chatHistory.getLast? = some m ∧
        m.content = last.content ∧ m.thinking ≠ some [] := by
  unfold finishStream getLast at h
  cases hl : hist.getLast? with
  | none => rw [hl] at h; simp at h
  | some last =>
    rw [hl] at h
    cases ht : last.thinking with
    | none => simp only [ht] at h; cases h
    | some t =>
      simp only [ht] at h
      by_cases htt : t = []
      · rw [if_pos htt] at h
        rw [Except.ok.injEq] at h
        subst h
        refine ⟨rfl, rfl, last, t, rfl, ht, { last with thinking := none },
          setLast_getLast _ _, rfl, ?_⟩
        intro hc
        cases hc
      · rw [if_neg htt] at h
        rw [Except.ok.injEq] at h
        subst h
        refine ⟨rfl, rfl, last, t, rfl, ht, last, hl, rfl, ?_⟩
        rw [ht]
        intro hc
        injection hc with hc2
        exact htt hc2

/-- Specification of the `except` handler: on success exactly the one warning
is emitted, streaming ends, and the final last message's content is the
fixed error marker. -/
theorem streamHandler_ok_spec {s : AppState} {e : PyError} {hist : List Message}
    {yields : List (List DisplayEntry)} {o : StreamOutcome}
    (h : streamHandler s e hist yields = Except.ok o) :
    o.state.isStreaming = false ∧ o.warnings = [e] ∧
    ∃ m, o.state.chatHistory.getLast? = some m ∧
      m.content = errorMarker ∧ m.thinking ≠ some [] := by
  unfold streamHandler getLast at h
  cases hl : hist.getLast? with
  | none => rw [hl] at h; simp at h
  | some last =>
    rw [hl] at h
    simp only at h
    obtain ⟨h1, h2, last2, t2, hl2, _ht2, m, hm, hmc, hmt⟩ := finishStream_ok_spec h
    rw [setLast_getLast] at hl2
    cases hl2
    exact ⟨h1, h2, m, hm, hmc, hmt⟩

theorem pyIndex_none_iff (len : Nat) (i : Int) :
    pyIndex len i = none ↔ (len : Int) ≤ i ∨ i < -(len : Int) := by
  unfold pyIndex
  by_cases h0 : 0 ≤ i
  · rw [if_pos h0]
    by_cases h1 : i < (len : Int)
    · rw [if_pos h1]
      simp
      omega
    · rw [if_neg h1]
      simp
      omega
  · rw [if_neg h0]
    simp only
    by_cases h2 : 0 ≤ (len : Int) + i
    · rw [if_pos h2]
      simp
      omega
    · rw [if_neg h2]
      simp
      omega

theorem pyIndex_nonneg (len : Nat) (i : Int) (h0 : 0 ≤ i) (h1 : i < (len : Int)) :
    pyIndex len i = some i.toNat := by
  unfold pyIndex
  rw [if_pos h0, if_pos h1]

theorem pyIndex_neg (len : Nat) (i : Int) (h : -(len : Int) ≤ i) (h2 : i < 0) :
    pyIndex len i = some ((len : Int) + i).toNat := by
  unfold pyIndex
  rw [if_neg (by omega)]
  simp only
  rw [if_pos (by omega)]

theorem retryExtra_nonneg (m : Message) : 0 ≤ retryExtra m := by
  unfold retryExtra
  split
  · omega
  · split
    · exact Int.ofNat_nonneg _
    · omega

theorem displayExpand_length (m : Message) :
    (displayExpand m).length = 1 + displayExtra m := by
  unfold displayExpand displayExtra
  cases hr : m.role with
  | assistant => rfl
  | user =>
    by_cases hi : m.images ≠ []
    · rw [if_pos hi, if_pos hi]
      rfl
    · rw [if_neg hi, if_neg hi]
      rw [List.length_append, List.length_map]
      simp [Nat.add_comm]

theorem chatHistoryDisplay_length (l : List Message) :
    (chatHistoryDisplay l).length = l.length + (l.map displayExtra).sum := by
  induction l with
  | nil => rfl
  | cons m rest ih =>
    unfold chatHistoryDisplay at ih ⊢
    simp only [List.map_cons, List.flatten_cons, List.length_append, List.sum_cons,
      List.length_cons]
    rw [ih, displayExpand_length]
    omega

theorem retryExtra_eq_displayExtra (m : Message)
    (hm : m.role = Role.assistant → m.images = [] ∧ m.files = []) :
    retryExtra m = (displayExtra m : Int) := by
  unfold retryExtra displayExtra
  cases hr : m.role with
  | assistant =>
    obtain ⟨h1, h2⟩ := hm hr
    rw [if_neg (by simp [h1]), if_neg (by simp [h2])]
    rfl
  | user =>
    by_cases hi : m.images ≠ []
    · rw [if_pos hi, if_pos hi]
      rfl
    · rw [if_neg hi, if_neg hi]
      by_cases hf : m.files ≠ []
      · rw [if_pos hf]
      · rw [if_neg hf]
        rw [not_not] at hf
        rw [hf]
        rfl

theorem retryLoop_resolves (L : List Message) (k : Nat) (hk : k < L.length) :
    ∀ d i, i + d = k + 1 →
      retryLoop L i ((k : Int) + (((L.take (k + 1)).drop i).map retryExtra).sum)
        = Except.ok (k : Int) := by
  intro d
  induction d with
  | zero =>
    intro i hi
    have hik : i = k + 1 := by omega
    subst hik
    have hdrop : (L.take (k + 1)).drop (k + 1) = [] := by
      apply List.drop_eq_nil_of_le
      rw [List.length_take]
      omega
    rw [hdrop]
    simp only [List.map_nil, List.sum_nil, add_zero]
    unfold retryLoop
    rw [dif_neg (by push_cast; omega)]
  | succ d ih =>
    intro i hi
    have hik : i ≤ k := by omega
    have hlt : i < L.length := by omega
    have hsum : 0 ≤ (((L.take (k + 1)).drop i).map retryExtra).sum := by
      apply List.sum_nonneg
      intro x hx
      obtain ⟨m, _, rfl⟩ := List.mem_map.mp hx
      exact retryExtra_nonneg m
    have h1 : i < (L.take (k + 1)).length := by
      rw [List.length_take]
      omega
    have h2 : (L.take (k + 1))[i] = L.get ⟨i, hlt⟩ := by
      have h4 := List.getElem?_take_of_lt (l := L) (n := k + 1) (m := i) (by omega)
      rw [List.getElem?_eq_getElem h1, List.getElem?_eq_getElem hlt] at h4
      exact Option.some.inj h4
    have hdec : (L.take (k + 1)).drop i
        = L.get ⟨i, hlt⟩ :: (L.take (k + 1)).drop (i + 1) := by
      rw [List.drop_eq_getElem_cons h1, h2]
    unfold retryLoop
    rw [dif_pos (by omega)]
    rw [List.get?_eq_get hlt]
    simp only
    rw [hdec]
    simp only [List.map_cons, List.sum_cons]
    have harith : (k : Int) + (retryExtra (L.get ⟨i, hlt⟩)
          + (((L.take (k + 1)).drop (i + 1)).map retryExtra).sum)
          - retryExtra (L.get ⟨i, hlt⟩)
        = (k : Int) + (((L.take (k + 1)).drop (i + 1)).map retryExtra).sum := by
      ring
    rw [harith]
    exact ih (i + 1) (by omega)

theorem retrySum_eq_displaySum (l : List Message)
    (hwf : ∀ m ∈ l, m.role = Role.assistant → m.images = [] ∧ m.files = []) :
    (l.map retryExtra).sum = (((l.map displayExtra).sum : Nat) : Int) := by
  induction l with
  | nil => rfl
  | cons m rest ih =>
    simp only [List.map_cons, List.sum_cons]
    rw [retryExtra_eq_displayExtra m (hwf m (List.mem_cons_self m rest)),
      ih (fun x hx => hwf x (List.mem_cons_of_mem m hx))]
    push_cast
    ring

theorem displayIndexOf_spec (L : List Message) (k : Nat) (hk : k < L.length) :
    displayIndexOf L k = k + ((L.take k).map displayExtra).sum := by
  unfold displayIndexOf
  rw [chatHistoryDisplay_length, List.length_take]
  omega

/-!
## Claim theorems
-/

/-- Claim C1, counterexample.  With the spec's three content-only increments
`"<thi"`, `"nk>reasoning here</thi"`, `"nk>answer"`, the stream does NOT end
with `thinking == "reasoning here"` and `content == "answer"`: the closing
tag is only detected when the accumulated thinking ends with it at an
increment boundary, so here the final thinking is
`"reasoning here</think>answer"` and the content is empty. -/
theorem c1_counterexample :
    ¬ ((stream_chat exampleState exampleScriptModeB).map
          (fun o => o.state.chatHistory.getLast?.map (fun m => (m.thinking, m.content)))
        = Except.ok (some (some (("reasoning here").toList), ("answer").toList))) ∧
    (stream_chat exampleState exampleScriptModeB).map
        (fun o => o.state.chatHistory.getLast?.map (fun m => (m.thinking, m.content)))
      = Except.ok (some (some (("reasoning here</think>answer").toList), ([] : Str))) := by
  constructor
  · decide
  · decide

/-- Claim C1, amended.  The Mode B thinking-tag round trip holds when the
closing tag ends an increment: feeding `"<thi"`, `"nk>reasoning here</thi"`,
`"nk>"`, `"answer"` results in a final open assistant message with
`thinking == "reasoning here"` and `content == "answer"`, with no fragment
of the tags remaining in either field. -/
theorem c1_roundtrip_split :
    (stream_chat exampleState exampleScriptModeBSplit).map
        (fun o => o.state.chatHistory.getLast?.map (fun m => (m.thinking, m.content)))
      = Except.ok (some (some (("reasoning here").toList), ("answer").toList)) := by
  decide

/-- Claim C2, counterexample.  When the generation call raises after a
thinking increment `"abc"` was applied, the partially-accumulated thinking
is NOT discarded: the final message carries `thinking == "abc"` next to the
error marker content. -/
theorem c2_counterexample :
    (stream_chat exampleState exampleScriptErr).map
        (fun o => o.state.chatHistory.getLast?.map (fun m => (m.content, m.thinking)))
      = Except.ok (some (errorMarker, some (("abc").toList))) ∧
    some (("abc").toList) ≠ (none : Option Str) ∧
    some (("abc").toList) ≠ some ([] : Str) := by
  refine ⟨by decide, by decide, by decide⟩

/-- Claim C2, amended.  For every stream where the generation call raises
after the yielded increments, the final open assistant message's content is
the fixed error marker (the partially-accumulated content is discarded in
favour of the marker; the accumulated thinking is kept, its key dropped only
when empty), exactly one warning is emitted, and `is_streaming` is false
afterwards. -/
theorem c2_error_path (s : AppState) (script : StreamScript) (o : StreamOutcome)
    (hs : s.isStreaming = true) (hr : script.raises = true)
    (hok : stream_chat s script = Except.ok o) :
    o.warnings.length = 1 ∧ o.state.isStreaming = false ∧
    ∃ m, o.state.chatHistory.getLast? = some m ∧ m.content = errorMarker := by
  unfold stream_chat at hok
  split at hok
  · cases hloop : streamLoop true s.chatHistory false script.chunks with
    | raised e hist outs =>
      rw [hloop] at hok
      obtain ⟨h1, h2, m, hm, hmc, _⟩ := streamHandler_ok_spec hok
      exact ⟨by rw [h2]; rfl, h1, m, hm, hmc⟩
    | finished hist think outs =>
      rw [hloop] at hok
      simp only [hr, if_pos] at hok
      obtain ⟨h1, h2, m, hm, hmc, _⟩ := streamHandler_ok_spec hok
      exact ⟨by rw [h2]; rfl, h1, m, hm, hmc⟩
  · rename_i hfalse
    exact absurd hs hfalse

/-- Witness for `c2_error_path`: a concrete raising stream. -/
theorem c2_error_path_witness :
    ∃ o, stream_chat minimalStreamState { chunks := [], raises := true } = Except.ok o ∧
      (o.warnings.length = 1 ∧ o.state.isStreaming = false ∧
        ∃ m, o.state.chatHistory.getLast? = some m ∧ m.content = errorMarker) := by
  refine ⟨{ state :=
              { chats := []
                chatIndex := 0
                chatTitle := []
                chatHistory := [ { role := Role.assistant, content := errorMarker } ]
                isStreaming := false }
            yields :=
              [ [DisplayEntry.message
                  { role := Role.assistant, content := errorMarker, thinking := some [] }]
              , [DisplayEntry.message { role := Role.assistant, content := errorMarker }] ]
            warnings := [PyError.streamError] }, ?_, ?_⟩
  · decide
  · exact c2_error_path minimalStreamState { chunks := [], raises := true } _ (by decide)
      (by decide) (by decide)

/-- Claim C3, counterexample.  Invoking the streaming controller while
`is_streaming` is already true neither no-ops nor fails: it consumes the
stream, mutates the transcript, and returns normally. -/
theorem c3_counterexample :
    exampleState.isStreaming = true ∧
    (stream_chat exampleState exampleScriptHi).map (fun o => o.state.chatHistory)
      = Except.ok
          [ { role := Role.user, content := ("hello").toList }
          , { role := Role.assistant, content := ("hi").toList } ] ∧
    [ ({ role := Role.user, content := ("hello").toList } : Message)
    , { role := Role.assistant, content := ("hi").toList } ] ≠ exampleState.chatHistory := by
  refine ⟨by decide, by decide, by decide⟩

/-- Claim C3, amended.  `new_message` performs no `is_streaming` check and
unconditionally sets the flag true, so the chained `stream_chat` does start
another generation; the controller's failsafe has the opposite polarity to
the claim: it ignores the generation stream entirely (the result does not
depend on it) exactly when `is_streaming` is false at entry.  Single-flight
is enforced by UI component disabling, not by these handlers. -/
theorem c3_single_flight (fmt : Message → Message) (input : UserInput)
    (s s2 : AppState) (script script2 : StreamScript)
    (hs2 : s2.isStreaming = false) :
    (new_message fmt input s).1.isStreaming = true ∧
    stream_chat s2 script = stream_chat s2 script2 := by
  constructor
  · rfl
  · unfold stream_chat
    rw [hs2]
    simp

/-- Witness for `c3_single_flight` at concrete inputs. -/
theorem c3_single_flight_witness :
    (new_message id { text := ("x").toList, files := [] } exampleState).1.isStreaming = true ∧
    stream_chat loadedState { chunks := [], raises := false }
      = stream_chat loadedState exampleScriptHi :=
  c3_single_flight id { text := ("x").toList, files := [] } exampleState loadedState
    { chunks := [], raises := false } exampleScriptHi (by decide)

/-- Claim C4.  For every transcript in which message `k` (0-indexed) is a
user message with no attachments (and, per the data model, assistant
messages carry no attachments), `retry` invoked with the display index of
message `k` leaves a transcript of exactly `k+2` raw messages — the
original prefix through `k` unchanged plus one fresh assistant message with
empty content and empty thinking — and sets `is_streaming` to true. -/
theorem c4_retry_truncation (s : AppState) (k : Nat)
    (hk : k < s.chatHistory.length)
    (_huser : s.chatHistory[k].role = Role.user)
    (himg : s.chatHistory[k].images = [])
    (hfile : s.chatHistory[k].files = [])
    (hwf : ∀ m ∈ s.chatHistory.take (k + 1),
        m.role = Role.assistant → m.images = [] ∧ m.files = []) :
    retry s ((displayIndexOf s.chatHistory k : Nat) : Int)
      = Except.ok
          ({ s with chatHistory := s.chatHistory.take (k + 1) ++ [freshAssistant],
                    isStreaming := true },
            [chatHistoryDisplay (s.chatHistory.take (k + 1) ++ [freshAssistant])]) ∧
    (s.chatHistory.take (k + 1) ++ [freshAssistant]).length = k + 2 := by
  have hzero : retryExtra s.chatHistory[k] = 0 := by
    unfold retryExtra
    rw [if_neg (by simp [himg]), if_neg (by simp [hfile])]
  have hsplit : s.chatHistory.take (k + 1)
      = s.chatHistory.take k ++ [s.chatHistory[k]] := by
    rw [List.take_succ, List.getElem?_eq_getElem hk]
    rfl
  have hidx : ((displayIndexOf s.chatHistory k : Nat) : Int)
      = (k : Int) + ((s.chatHistory.take (k + 1)).map retryExtra).sum := by
    rw [displayIndexOf_spec s.chatHistory k hk, hsplit, List.map_append, List.sum_append]
    simp only [List.map_cons, List.map_nil, List.sum_cons, List.sum_nil, add_zero]
    rw [hzero]
    rw [retrySum_eq_displaySum (s.chatHistory.take k) ?_]
    · push_cast
      ring
    · intro m hm
      refine hwf m ?_
      rw [hsplit]
      exact List.mem_append_left _ hm
  have hloop := retryLoop_resolves s.chatHistory k hk (k + 1) 0 (by omega)
  rw [List.drop_zero] at hloop
  unfold retry
  rw [hidx, hloop]
  simp only
  unfold pySliceTo
  rw [if_pos (by omega)]
  have htn : ((k : Int) + 1).toNat = k + 1 := by omega
  rw [htn]
  refine ⟨rfl, ?_⟩
  rw [List.length_append, List.length_take]
  simp only [List.length_cons, List.length_nil]
  omega

/-- Witness for `c4_retry_truncation`: retrying the second user message of a
transcript whose first user message carries two files. -/
theorem c4_retry_truncation_witness :
    retry retryState ((displayIndexOf retryState.chatHistory 2 : Nat) : Int)
      = Except.ok
          ({ retryState with
              chatHistory := retryState.chatHistory.take (2 + 1) ++ [freshAssistant],
              isStreaming := true },
            [chatHistoryDisplay (retryState.chatHistory.take (2 + 1) ++ [freshAssistant])]) ∧
    (retryState.chatHistory.take (2 + 1) ++ [freshAssistant]).length = 2 + 2 :=
  c4_retry_truncation retryState 2 (by decide) (by decide) (by decide) (by decide)
    (by decide)

/-- Claim C5.  Every successful `stream_chat` run ends with a final message
that never carries an empty `thinking` field: if the accumulated thinking is
the empty string, the key is removed entirely by the cleanup. -/
theorem c5_empty_thinking_cleanup (s : AppState) (script : StreamScript)
    (o : StreamOutcome) (m : Message)
    (hok : stream_chat s script = Except.ok o)
    (hm : o.state.chatHistory.getLast? = some m) :
    m.thinking ≠ some [] := by
  unfold stream_chat at hok
  split at hok
  · cases hloop : streamLoop true s.chatHistory false script.chunks with
    | raised e hist outs =>
      rw [hloop] at hok
      obtain ⟨_, _, m2, hm2, _, hmt⟩ := streamHandler_ok_spec hok
      rw [hm] at hm2
      injection hm2 with hmm
      rw [hmm]
      exact hmt
    | finished hist think outs =>
      rw [hloop] at hok
      by_cases hr : script.raises
      · simp only [hr, if_pos] at hok
        obtain ⟨_, _, m2, hm2, _, hmt⟩ := streamHandler_ok_spec hok
        rw [hm] at hm2
        injection hm2 with hmm
        rw [hmm]
        exact hmt
      · simp only [hr, if_neg] at hok
        obtain ⟨_, _, _, _, _, _, m2, hm2, _, hmt⟩ := finishStream_ok_spec hok
        rw [hm] at hm2
        injection hm2 with hmm
        rw [hmm]
        exact hmt
  · obtain ⟨_, _, _, _, _, _, m2, hm2, _, hmt⟩ := finishStream_ok_spec hok
    rw [hm] at hm2
    injection hm2 with hmm
    rw [hmm]
    exact hmt

/-- Witness for `c5_empty_thinking_cleanup`: a full run with no thinking
yields a final message without the field. -/
theorem c5_empty_thinking_cleanup_witness :
    ({ role := Role.assistant, content := [] } : Message).thinking ≠ some [] :=
  c5_empty_thinking_cleanup minimalStreamState { chunks := [], raises := false }
    { state :=
        { chats := []
          chatIndex := 0
          chatTitle := []
          chatHistory := [ { role := Role.assistant, content := [] } ]
          isStreaming := false }
      yields := [ [DisplayEntry.message { role := Role.assistant, content := [] }] ]
      warnings := [] }
    { role := Role.assistant, content := [] } (by decide) (by decide)

theorem cs_get_chat_titles_length (l : List Session) :
    (cs_get_chat_titles l).length = l.length := by
  unfold cs_get_chat_titles
  rw [List.length_map, List.enum_length]

theorem cs_get_chat_title_zero (c : Session) (rest : List Session) :
    cs_get_chat_title (c :: rest) 0 = Except.ok c.title := by
  unfold cs_get_chat_title pyGet
  rw [pyIndex_nonneg _ _ (le_refl 0) (by simp only [List.length_cons]; omega)]
  rfl

theorem update_current_chat_neg_one (s s2 : AppState)
    (h : update_current_chat s (-1) = Except.ok s2) :
    s2 = { s with chats := emptySession :: s.chats,
                  chatIndex := 0, chatHistory := [], chatTitle := [] } := by
  unfold update_current_chat at h
  rw [if_pos rfl] at h
  simp only [cs_new_chat] at h
  rw [cs_get_chat_title_zero] at h
  simp only at h
  rw [Except.ok.injEq] at h
  exact h.symm

theorem update_current_chat_other (s : AppState) (i : Int) (s2 : AppState)
    (hi : ¬ i = -1) (h : update_current_chat s i = Except.ok s2) :
    s2.chats = s.chats := by
  unfold update_current_chat at h
  rw [if_neg hi] at h
  cases hl : cs_load_chat s.chats i with
  | error e => rw [hl] at h; simp at h
  | ok hist =>
    rw [hl] at h
    simp only at h
    cases ht : cs_get_chat_title s.chats i with
    | error e => rw [ht] at h; simp at h
    | ok title =>
      rw [ht] at h
      simp only at h
      rw [Except.ok.injEq] at h
      rw [← h]

/-- Claim C7.  Deleting the only remaining session leaves exactly one fresh
empty session afterwards, and no delete operation ever leaves the store
with zero sessions. -/
theorem c7_session_invariant (s : AppState) :
    (s.chats.length = 1 →
      delete_chat s 0 = Except.ok
        { s with chats := [emptySession],
                 chatIndex := 0, chatHistory := [], chatTitle := [] }) ∧
    (∀ (index : Int) (s2 : AppState),
      delete_chat s index = Except.ok s2 → 1 ≤ s2.chats.length) := by
  constructor
  · intro h1
    obtain ⟨chats, chatIndex, chatTitle, chatHistory, isStreaming⟩ := s
    simp only at h1 ⊢
    obtain ⟨c, hc⟩ : ∃ c, chats = [c] := by
      cases chats with
      | nil => simp at h1
      | cons c rest =>
        cases rest with
        | nil => exact ⟨c, rfl⟩
        | cons d r2 => simp at h1
    subst hc
    rfl
  · intro index s2 h
    simp only [delete_chat] at h
    by_cases hz : (cs_get_chat_titles (cs_delete_chat s.chats index)).length = 0
    · rw [if_pos hz] at h
      unfold new_chat at h
      have h2 := update_current_chat_neg_one _ _ h
      rw [h2]
      simp
    · rw [if_neg hz] at h
      have hlen : 1 ≤ (cs_delete_chat s.chats index).length := by
        have hx := cs_get_chat_titles_length (cs_delete_chat s.chats index)
        omega
      by_cases hcond : (s.chatIndex ≥ index ∧ s.chatIndex > 0)
      · rw [if_pos hcond] at h
        have hne : ¬ (s.chatIndex - 1 = -1) := by omega
        have h2 := update_current_chat_other _ _ _ hne h
        simp only at h2
        rw [h2]
        exact hlen
      · rw [if_neg hcond] at h
        by_cases hneg : s.chatIndex = -1
        · rw [hneg] at h
          have h2 := update_current_chat_neg_one _ _ h
          rw [h2]
          simp
        · have h2 := update_current_chat_other _ _ _ hneg h
          simp only at h2
          rw [h2]
          exact hlen

/-- Witness for `c7_session_invariant` on a single-session store. -/
theorem c7_session_invariant_witness :
    delete_chat oneChatState 0 = Except.ok
      { oneChatState with
        chats := [emptySession]
        chatIndex := 0
        chatHistory := []
        chatTitle := [] } ∧
    1 ≤ ({ oneChatState with
           chats := [emptySession]
           chatIndex := 0
           chatHistory := []
           chatTitle := [] } : AppState).chats.length :=
  ⟨(c7_session_invariant oneChatState).1 (by decide),
   (c7_session_invariant oneChatState).2 0 _
     ((c7_session_invariant oneChatState).1 (by decide))⟩

/-- Claim C6, counterexample.  Calling `stop_stream_chat` while
`is_streaming` is already false still emits a snapshot to the UI boundary
(the unconditional yield), so it is not free of duplicate snapshot
emissions. -/
theorem c6_counterexample :
    loadedState.isStreaming = false ∧
    (stop_stream_chat loadedState).2 ≠ ([] : List (List DisplayEntry)) ∧
    (stop_stream_chat loadedState).2.length = 1 := by
  refine ⟨by decide, by decide, by decide⟩

/-- Claim C6, amended.  Calling `stop_stream_chat` when `is_streaming` is
already false mutates no transcript message and leaves the state unchanged,
but it still emits exactly one snapshot (its unconditional yield). -/
theorem c6_idempotent_stop (s : AppState) (hs : s.isStreaming = false) :
    (stop_stream_chat s).1 = s ∧
    (stop_stream_chat s).2 = [chatHistoryDisplay s.chatHistory] := by
  refine ⟨?_, rfl⟩
  unfold stop_stream_chat
  cases s with
  | mk chats chatIndex chatTitle chatHistory isStreaming =>
    simp only at hs
    simp [hs]

/-- Witness for `c6_idempotent_stop` at a concrete idle state. -/
theorem c6_idempotent_stop_witness :
    (stop_stream_chat loadedState).1 = loadedState ∧
    (stop_stream_chat loadedState).2 = [chatHistoryDisplay loadedState.chatHistory] :=
  c6_idempotent_stop loadedState (by decide)

/-- Claim C8, counterexample.  When the one-shot title-generation call
raises, `update_chat_selector` propagates the exception to its caller
(there is no exception handling in the function). -/
theorem c8_counterexample :
    (update_chat_selector failingCall titleState).raised = some PyError.streamError := by
  decide

/-- Claim C8, amended.  If the title-generation call raises while the
current title is the `"New Chat"` sentinel, the exception propagates out of
`update_chat_selector`; the state is unmodified, so the session keeps its
sentinel title and the transcript is unchanged (containment happens only at
the UI-framework layer, not in this function). -/
theorem c8_title_failure (call : List Message → Except PyError Str) (s : AppState)
    (e : PyError) (ht : s.chatTitle = ("New Chat").toList)
    (hc : call (s.chatHistory ++ [titlePrompt]) = Except.error e) :
    update_chat_selector call s = { state := s, raised := some e } := by
  unfold update_chat_selector
  rw [if_pos ht, hc]

/-- Witness for `c8_title_failure` at a concrete sentinel-titled state. -/
theorem c8_title_failure_witness :
    update_chat_selector failingCall titleState
      = { state := titleState, raised := some PyError.streamError } :=
  c8_title_failure failingCall titleState PyError.streamError (by decide) rfl

/-- Claim C9, counterexample.  `load_chat(-1)` on the default session store
silently succeeds (Python negative indexing), returning the last session's
transcript, although `-1` is outside `[0, session count)`. -/
theorem c9_counterexample :
    ¬ (0 ≤ (-1 : Int)) ∧
    cs_load_chat csChatsInit (-1)
      = Except.ok
          [ { role := Role.user, content := ("Explain quantum entanglement").toList }
          , { role := Role.assistant,
              content := ("Quantum entanglement is a physical phenomenon where particles remain connected such that the state of one affects the other, no matter the distance.").toList } ] := by
  refine ⟨by decide, by decide⟩

/-- Claim C9, amended.  `load_chat` fails with an `IndexError` exactly for
ids at or beyond the session count or below minus the count; ids in
`[-count, 0)` silently succeed, aliasing the session counted from the end. -/
theorem c9_load_chat_bounds (chats : List Session) (index : Int) :
    (((chats.length : Int) ≤ index ∨ index < -(chats.length : Int)) →
      cs_load_chat chats index = Except.error PyError.indexError) ∧
    ((-(chats.length : Int) ≤ index ∧ index < 0) →
      cs_load_chat chats index = cs_load_chat chats (index + (chats.length : Int))) := by
  constructor
  · intro hbad
    unfold cs_load_chat pyGet
    rw [(pyIndex_none_iff _ _).mpr hbad]
  · rintro ⟨hge, hlt⟩
    unfold cs_load_chat pyGet
    rw [pyIndex_neg _ _ hge hlt, pyIndex_nonneg _ _ (by omega) (by omega)]
    have h : ((chats.length : Int) + index).toNat = (index + (chats.length : Int)).toNat := by
      omega
    rw [h]

/-- Witness for `c9_load_chat_bounds` on the default store. -/
theorem c9_load_chat_bounds_witness :
    cs_load_chat csChatsInit 5 = Except.error PyError.indexError ∧
    cs_load_chat csChatsInit (-2) = cs_load_chat csChatsInit (-2 + (csChatsInit.length : Int)) :=
  ⟨(c9_load_chat_bounds csChatsInit 5).1 (by decide),
   (c9_load_chat_bounds csChatsInit (-2)).2 (by decide)⟩

/-- Claim C10.  The post-stream cleanup runs unconditionally: invoking
`stream_chat` while `is_streaming` is false on any transcript whose last
message lacks a `"thinking"` key raises a `KeyError` at the cleanup access
instead of being a safe no-op. -/
theorem c10_cleanup_keyerror (s : AppState) (script : StreamScript) (m : Message)
    (hs : s.isStreaming = false)
    (hm : s.chatHistory.getLast? = some m)
    (hth : m.thinking = none) :
    stream_chat s script = Except.error PyError.keyError := by
  unfold stream_chat
  rw [hs]
  simp only [Bool.false_eq_true, if_false]
  unfold finishStream getLast
  rw [hm]
  simp [hth]

/-- Witness for `c10_cleanup_keyerror`: a freshly loaded chat. -/
theorem c10_cleanup_keyerror_witness :
    stream_chat loadedState { chunks := [], raises := false }
      = Except.error PyError.keyError :=
  c10_cleanup_keyerror loadedState { chunks := [], raises := false }
    { role := Role.assistant, content := ("ok").toList } rfl (by decide) rfl

end OOD
